import Mathlib

/-!
Verification of the `order` package of `kubernetes-envoy-example`
(file `order/order.go`): a front-end server that multiplexes a native
gRPC protocol and HTTP/JSON on one TCP port, wraps every RPC in a fixed
interceptor chain, and exposes the order store through a gRPC gateway.

The Go code is shallowly embedded: pure decision logic (request
classification, mux routing, `net.SplitHostPort`/`net.JoinHostPort`,
option folding in `New`, the error structure of `Run`) becomes executable
Lean functions; effectful library calls (dialing, serving, logging) are
represented by explicit outcome parameters, and interceptors by symbolic
tags ordered exactly as the source registers them.
-/

set_option autoImplicit false

namespace EnvoyOrder

/-- One nanosecond, the base duration unit (Go `time.Duration` is an
integer count of nanoseconds). -/
def nanosecond : Nat := 1

/-- Go `time.Second` in nanoseconds. -/
def second : Nat := 1000000000

/-- The configurable part of the `Server` struct in `order.go` lines
34-41: `address` (listen address) and `endpoint` (item-service address).
The remaining fields (`server`, `grpc`, `store`, `item`) are runtime
handles created later, modelled separately. -/
structure ServerConfig where
  address : String
  endpoint : String
deriving DecidableEq, Repr

/-- The struct literal in `New` (order.go lines 45-48): default listen
address `":8080"`, default item endpoint `"127.0.0.1:9090"`. -/
def defaultServer : ServerConfig :=
  { address := ":8080", endpoint := "127.0.0.1:9090" }

/-- `OptionsFunc` from order.go line 31: mutates the server under
construction or fails. -/
abbrev OptionsFunc := ServerConfig → Except String ServerConfig

/-- The option loop in `New` (order.go lines 50-54): apply each options
function in order; on the first failure return the error wrapped with
"options function failed" and stop. -/
def applyOptions : List OptionsFunc → ServerConfig → Except String ServerConfig
  | [], s => .ok s
  | f :: fs, s =>
    match f s with
    | .ok s₂ => applyOptions fs s₂
    | .error e => .error ("options function failed: " ++ e)

/-- `SetAddress` (order.go lines 82-87). -/
def SetAddress (address : String) : OptionsFunc :=
  fun s => .ok { s with address := address }

/-- `SetEndpoint` (order.go lines 90-95). -/
def SetEndpoint (address : String) : OptionsFunc :=
  fun s => .ok { s with endpoint := address }

/-- The two outbound (client-side) unary interceptors that `New` chains
on the item-service connection (order.go lines 61-64):
`util.UnaryClientInterceptor()` (identity/trust-token propagation) and
`grpc_prometheus.UnaryClientInterceptor` (client-side metrics). -/
inductive ClientInterceptor where
  | identityPropagation
  | clientMetrics
deriving DecidableEq, Repr

/-- The client-side unary chain in the order it is passed to
`grpc_middleware.ChainUnaryClient` in `New` (order.go lines 61-64). -/
def clientUnaryInterceptorChain : List ClientInterceptor :=
  [ClientInterceptor.identityPropagation, ClientInterceptor.clientMetrics]

/-- Observable side effects of a call to `New` (order.go lines 56-78):
whether the gRPC dial was attempted, whether the item client and the
order store were constructed, and whether `LoadSampleData` ran. -/
structure NewEffects where
  dialAttempted : Bool
  itemClientCreated : Bool
  storeCreated : Bool
  sampleDataLoaded : Bool
deriving DecidableEq, Repr

/-- Result of `New`: the returned server (or error), the endpoint passed
to `grpc.DialContext` if it was reached, and the side effects. -/
structure NewOutcome where
  result : Except String ServerConfig
  dialedEndpoint : Option String
  effects : NewEffects
deriving Repr

/-- Shallow embedding of `New` (order.go lines 44-79).  The options fold
runs first; if any options function fails, `New` returns `nil` plus the
wrapped error before dialing, creating the client or store, or loading
sample data.  Otherwise it dials `s.endpoint` (`dialOk` abstracts the
outcome of `grpc.DialContext`), and on success unconditionally creates
the item client, the store, and calls `s.store.LoadSampleData()`
(order.go line 76, under the comment `TODO: option to load this or not`). -/
def New (options : List OptionsFunc) (dialOk : Bool) : NewOutcome :=
  match applyOptions options defaultServer with
  | .error e =>
    { result := .error e
      dialedEndpoint := none
      effects :=
        { dialAttempted := false, itemClientCreated := false
          storeCreated := false, sampleDataLoaded := false } }
  | .ok s =>
    if dialOk then
      { result := .ok s
        dialedEndpoint := some s.endpoint
        effects :=
          { dialAttempted := true, itemClientCreated := true
            storeCreated := true, sampleDataLoaded := true } }
    else
      { result := .error "could not create grpc client"
        dialedEndpoint := some s.endpoint
        effects :=
          { dialAttempted := true, itemClientCreated := false
            storeCreated := false, sampleDataLoaded := false } }

/-- The six server-side unary interceptors of order.go lines 112-123,
as symbolic stages.  The sleeper carries its delay argument in
nanoseconds (`util.UnaryServerSleeperInterceptor(time.Second*3)`). -/
inductive ServerInterceptor where
  | identityPropagation
  | sleeper (delay : Nat)
  | validation
  | serverMetrics
  | logging
  | recovery
deriving DecidableEq, Repr

/-- The server-side unary chain exactly as passed to
`grpc_middleware.ChainUnaryServer` in `Run` (order.go lines 114-121):
`util.UnaryServerInterceptor()`,
`util.UnaryServerSleeperInterceptor(time.Second*3)`,
`grpc_validator.UnaryServerInterceptor()`,
`grpc_prometheus.UnaryServerInterceptor`,
`grpc_zap.UnaryServerInterceptor(logger)`,
`grpc_recovery.UnaryServerInterceptor()`. -/
def serverUnaryInterceptorChain : List ServerInterceptor :=
  [ServerInterceptor.identityPropagation,
   ServerInterceptor.sleeper (3 * second),
   ServerInterceptor.validation,
   ServerInterceptor.serverMetrics,
   ServerInterceptor.logging,
   ServerInterceptor.recovery]

/-- The chain `Run` installs for a given server configuration.  The
interceptor list in order.go lines 112-123 is built from constants only:
no field of the server (and no external configuration) is consulted. -/
def serverChainFor (_ : ServerConfig) : List ServerInterceptor :=
  serverUnaryInterceptorChain

/-- The abstract kind of each interceptor stage. -/
inductive StageKind where
  | identity
  | latencyInjection
  | validation
  | metrics
  | logging
  | recovery
deriving DecidableEq, Repr

/-- Classify an interceptor by stage kind. -/
def stageOf : ServerInterceptor → StageKind
  | ServerInterceptor.identityPropagation => StageKind.identity
  | ServerInterceptor.sleeper _ => StageKind.latencyInjection
  | ServerInterceptor.validation => StageKind.validation
  | ServerInterceptor.serverMetrics => StageKind.metrics
  | ServerInterceptor.logging => StageKind.logging
  | ServerInterceptor.recovery => StageKind.recovery

/-- The sleeper delay of an interceptor, if it is the sleeper stage. -/
def delayOf : ServerInterceptor → Option Nat
  | ServerInterceptor.sleeper d => some d
  | _ => none

/-- Does the character list `s` start with `sub`?  Embeds the prefix
test underlying Go `strings.Contains`. -/
def hasPrefixChars : List Char → List Char → Bool
  | _, [] => true
  | [], _ :: _ => false
  | a :: s, b :: sub => a == b && hasPrefixChars s sub

/-- Does `sub` occur as a contiguous substring of `s`?  Embeds Go
`strings.Contains(s, sub)` (true iff `sub` occurs anywhere in `s`,
including the empty substring). -/
def containsSub : List Char → List Char → Bool
  | [], sub => hasPrefixChars [] sub
  | a :: t, sub => hasPrefixChars (a :: t) sub || containsSub t sub

/-- The per-request data the handler closure in `Run` (order.go lines
144-151) inspects: `r.ProtoMajor`, `r.Header.Get("Content-Type")` (the
empty string when the header is absent), and `r.URL.Path` for mux
routing. -/
structure Request where
  protoMajor : Nat
  contentType : String
  path : String
deriving DecidableEq, Repr

/-- The two dispatch targets of the handler closure. -/
inductive Route where
  | grpcServer
  | httpMux
deriving DecidableEq, Repr

/-- The protocol classifier of the handler closure in `Run` (order.go
lines 145-150): `r.ProtoMajor == 2 && strings.Contains(r.Header.Get(
"Content-Type"), "application/grpc")` selects `s.grpc.ServeHTTP`,
everything else goes to `mux.ServeHTTP`. -/
def classify (r : Request) : Route :=
  if r.protoMajor == 2 && containsSub r.contentType.data "application/grpc".data then
    Route.grpcServer
  else
    Route.httpMux

/-- An HTTP response as status code plus body. -/
structure HTTPResponse where
  status : Nat
  body : String
deriving DecidableEq, Repr

/-- `healthz` (order.go lines 171-173): writes `"OK\n"` with the
implicit 200 status, for any request, touching no server state. -/
def healthzResponse : HTTPResponse :=
  { status := 200, body := "OK\n" }

/-- Where a request ends up after dispatch: the promhttp metrics
handler, the healthz handler (with its response), the gRPC gateway mux,
or the native gRPC server. -/
inductive Handled where
  | metrics
  | health (resp : HTTPResponse)
  | gateway
  | grpcNative
deriving DecidableEq, Repr

/-- The `http.NewServeMux` routing of order.go lines 137-140: pattern
`"/metrics"` (exact), pattern `"/healthz"` (exact), pattern `"/"`
(everything else) to the gateway mux. -/
def muxHandle (r : Request) : Handled :=
  if r.path == "/metrics" then Handled.metrics
  else if r.path == "/healthz" then Handled.health healthzResponse
  else Handled.gateway

/-- The full per-request dispatch of the server handler (order.go lines
144-151): classify, then either the native gRPC server or the HTTP mux. -/
def serverHandle (r : Request) : Handled :=
  match classify r with
  | Route.grpcServer => Handled.grpcNative
  | Route.httpMux => muxHandle r

/-- Index of the last occurrence of `c` in `s`, embedding the
`last(hostport, ':')` helper of Go `net.SplitHostPort`. -/
def lastIndexOfChar : List Char → Char → Option Nat
  | [], _ => none
  | a :: t, c =>
    match lastIndexOfChar t c with
    | some i => some (i + 1)
    | none => if a == c then some 0 else none

/-- Index of the first occurrence of `c` in `s` (Go `byteIndex`). -/
def indexOfChar : List Char → Char → Option Nat
  | [], _ => none
  | a :: t, c => if a == c then some 0 else (indexOfChar t c).map (· + 1)

/-- Embedding of Go `net.SplitHostPort`: the port starts after the last
colon; a leading bracket introduces a `[host]:port` form whose closing
bracket must sit just before that colon; otherwise the host is the part
before the last colon and may itself contain no colon; stray brackets
are rejected.  Error strings abbreviate the Go `AddrError` messages. -/
def SplitHostPort (hostport : String) : Except String (String × String) :=
  let cs := hostport.data
  match lastIndexOfChar cs ':' with
  | none => .error "missing port in address"
  | some i =>
    match cs with
    | [] => .error "missing port in address"
    | c₀ :: _ =>
      if c₀ == '[' then
        match indexOfChar cs ']' with
        | none => .error "missing right bracket in address"
        | some e =>
          if e + 1 == cs.length then
            .error "missing port in address"
          else if e + 1 == i then
            if ((cs.drop 1).contains '[') then .error "left bracket in host"
            else if ((cs.drop (e + 1)).contains ']') then .error "right bracket in address"
            else .ok (String.mk ((cs.drop 1).take (e - 1)), String.mk (cs.drop (i + 1)))
          else
            match cs.get? (e + 1) with
            | some ch =>
              if ch == ':' then .error "too many colons in address"
              else .error "missing port in address"
            | none => .error "missing port in address"
      else
        if ((cs.take i).contains ':') then .error "too many colons in address"
        else if (cs.contains '[') then .error "left bracket in host"
        else if (cs.contains ']') then .error "right bracket in address"
        else .ok (String.mk (cs.take i), String.mk (cs.drop (i + 1)))

/-- Embedding of Go `net.JoinHostPort`: bracket the host iff it contains
a colon, then join with `":"` and the port. -/
def JoinHostPort (host port : String) : String :=
  if host.data.contains ':' then "[" ++ host ++ "]:" ++ port
  else host ++ ":" ++ port

/-- The endpoint handed to `order.RegisterOrderServiceHandlerFromEndpoint`
in `Run` (order.go lines 126-133): split the configured listen address,
keep only its port, and rejoin it with the loopback host `"127.0.0.1"`.
The gateway therefore dials the server's own listening port. -/
def gatewayEndpoint (address : String) : Except String String :=
  match SplitHostPort address with
  | .error e => .error ("invalid address " ++ address ++ ": " ++ e)
  | .ok (_, port) => .ok (JoinHostPort "127.0.0.1" port)

/-- Outcome of `http.Server.Serve` as seen by `Run` (order.go lines
155-159): either `http.ErrServerClosed` (graceful shutdown) or some
other serving failure with a message. -/
inductive ServeResult where
  | errServerClosed
  | failure (msg : String)
deriving DecidableEq, Repr

/-- The outcomes of the effectful library calls `Run` makes, in source
order: logger construction (order.go line 99), `net.Listen` (line 104),
gateway registration (line 131), and `http.Server.Serve` (line 155). -/
structure RunEnv where
  loggerOk : Bool
  listenOk : Bool
  registerOk : Bool
  serve : ServeResult
deriving DecidableEq, Repr

/-- Shallow embedding of `Run` (order.go lines 98-162), keeping the
source's control flow: fail on logger construction, then on `net.Listen`
(wrapping the listen address into the message), then on
`net.SplitHostPort` of the address, then on gateway registration;
finally return `nil` iff `Serve` ended with `http.ErrServerClosed`, and
the wrapped serve error otherwise. -/
def Run (s : ServerConfig) (env : RunEnv) : Except String Unit :=
  if !env.loggerOk then .error "failed to create logger"
  else if !env.listenOk then .error ("failed to listen on " ++ s.address)
  else
    match SplitHostPort s.address with
    | .error _ => .error ("invalid address " ++ s.address)
    | .ok _ =>
      if !env.registerOk then .error "failed to register grpc gateway"
      else
        match env.serve with
        | ServeResult.errServerClosed => .ok ()
        | ServeResult.failure msg => .error ("failed to start http server: " ++ msg)

/-- The grace period `Stop` passes to `context.WithTimeout` (order.go
line 166): `time.Second * 10`, in nanoseconds. -/
def stopGracePeriod : Nat := 10 * second

/-- Shutdown-relevant state of the underlying `http.Server`.  Modelled
from the spec: the `net/http` `Shutdown` machinery is library code not
under `order/`; per its documented behavior, `Shutdown` marks the server
as shutting down and closes the listener, and doing so again on an
already-shut-down server changes nothing. -/
structure HTTPServerState where
  inShutdown : Bool
  listenerClosed : Bool
deriving DecidableEq, Repr

/-- `http.Server.Shutdown` on the shutdown-relevant state. -/
def Shutdown (st : HTTPServerState) : HTTPServerState :=
  { st with inShutdown := true, listenerClosed := true }

/-- `Stop` (order.go lines 165-169): creates a 10-second timeout context
and calls `s.server.Shutdown(ctx)`. -/
def Stop (st : HTTPServerState) : HTTPServerState :=
  Shutdown st

/-- An options function that always fails, used to witness the option
failure path of `New`. -/
def failingOption : OptionsFunc :=
  fun _ => Except.error "boom"

/-!  ## Supporting lemmas  -/

/-- `hasPrefixChars s sub` decides whether `sub` is a prefix of `s`. -/
theorem hasPrefixChars_iff :
    ∀ s sub : List Char, hasPrefixChars s sub = true ↔ ∃ t, sub ++ t = s
  | s, [] => by simp [hasPrefixChars]
  | [], _ :: _ => by simp [hasPrefixChars]
  | a :: s, b :: sub => by
    simp only [hasPrefixChars, Bool.and_eq_true, beq_iff_eq]
    constructor
    · rintro ⟨hab, h⟩
      obtain ⟨t, rfl⟩ := (hasPrefixChars_iff s sub).1 h
      refine ⟨t, ?_⟩
      rw [hab]
      rfl
    · rintro ⟨t, ht⟩
      injection ht with h₁ h₂
      exact ⟨h₁.symm, (hasPrefixChars_iff s sub).2 ⟨t, h₂⟩⟩

/-- `containsSub s sub` decides whether `sub` occurs contiguously inside
`s`, matching the semantics of Go `strings.Contains`. -/
theorem containsSub_iff :
    ∀ s sub : List Char, containsSub s sub = true ↔ ∃ pre post, pre ++ (sub ++ post) = s
  | [], sub => by
    rw [containsSub, hasPrefixChars_iff]
    constructor
    · rintro ⟨t, ht⟩
      exact ⟨[], t, ht⟩
    · rintro ⟨pre, post, h⟩
      obtain ⟨-, h₂⟩ := List.append_eq_nil.1 h
      exact ⟨post, h₂⟩
  | a :: s, sub => by
    rw [containsSub, Bool.or_eq_true, hasPrefixChars_iff, containsSub_iff s sub]
    constructor
    · rintro (⟨t, ht⟩ | ⟨pre, post, h⟩)
      · exact ⟨[], t, ht⟩
      · exact ⟨a :: pre, post, by rw [List.cons_append, h]⟩
    · rintro ⟨pre, post, h⟩
      match pre with
      | [] => exact Or.inl ⟨post, by simpa using h⟩
      | c :: pre₂ =>
        injection h with h₁ h₂
        exact Or.inr ⟨pre₂, post, h₂⟩

/-- A list is always a prefix of itself followed by anything. -/
theorem hasPrefixChars_append :
    ∀ sub t : List Char, hasPrefixChars (sub ++ t) sub = true
  | [], _ => by simp [hasPrefixChars]
  | b :: sub, t => by
    simp only [List.cons_append, hasPrefixChars, beq_self_eq_true, Bool.true_and]
    exact hasPrefixChars_append sub t

/-- Every error produced by the option loop of `New` carries the
`"options function failed: "` wrapper prefix. -/
theorem applyOptions_error_wrapped :
    ∀ (opts : List OptionsFunc) (s : ServerConfig) (e : String),
      applyOptions opts s = Except.error e →
      hasPrefixChars e.data "options function failed: ".data = true
  | [], _, _ => by simp [applyOptions]
  | f :: fs, s, e => by
    simp only [applyOptions]
    cases hf : f s with
    | ok s₂ =>
      intro h
      exact applyOptions_error_wrapped fs s₂ e h
    | error m =>
      intro h
      cases h
      exact hasPrefixChars_append "options function failed: ".data m.data

/-!  ## Claim theorems  -/

/-- Claim C1: every request handled by the running server goes to the
native gRPC server iff its HTTP protocol major version is 2 and its
Content-Type header contains the gRPC content-type prefix
`"application/grpc"` as a substring; every other request goes to the
HTTP multiplexer.  The classifier is a pure function of the single
request. -/
theorem classify_grpc_iff (r : Request) :
    (classify r = Route.grpcServer ↔
      (r.protoMajor = 2 ∧
        ∃ pre post, pre ++ ("application/grpc".data ++ post) = r.contentType.data)) ∧
    (classify r = Route.httpMux ↔
      ¬(r.protoMajor = 2 ∧
        ∃ pre post, pre ++ ("application/grpc".data ++ post) = r.contentType.data)) := by
  have hc := containsSub_iff r.contentType.data "application/grpc".data
  unfold classify
  by_cases h : (r.protoMajor == 2 && containsSub r.contentType.data "application/grpc".data) = true
  · rw [if_pos h]
    rw [Bool.and_eq_true, beq_iff_eq] at h
    obtain ⟨h₁, h₂⟩ := h
    refine ⟨⟨fun _ => ⟨h₁, hc.1 h₂⟩, fun _ => rfl⟩, ⟨fun hx => ?_, fun hn => ?_⟩⟩
    · cases hx
    · exact absurd ⟨h₁, hc.1 h₂⟩ hn
  · rw [if_neg h]
    rw [Bool.and_eq_true, beq_iff_eq] at h
    have hn : ¬(r.protoMajor = 2 ∧
        ∃ pre post, pre ++ ("application/grpc".data ++ post) = r.contentType.data) := by
      rintro ⟨h₁, h₂⟩
      exact h ⟨h₁, hc.2 h₂⟩
    refine ⟨⟨fun hx => ?_, fun hp => absurd hp hn⟩, ⟨fun _ => hn, fun _ => rfl⟩⟩
    cases hx

/-- Claim C2: the server-side unary interceptor chain is exactly the six
stages identity propagation, latency injection (sleeper), validation,
metrics, logging, panic recovery, in that fixed order, for every server
configuration. -/
theorem server_chain_fixed_order :
    (∀ s : ServerConfig, serverChainFor s = serverUnaryInterceptorChain) ∧
    serverUnaryInterceptorChain.map stageOf =
      [StageKind.identity, StageKind.latencyInjection, StageKind.validation,
       StageKind.metrics, StageKind.logging, StageKind.recovery] ∧
    serverUnaryInterceptorChain.length = 6 :=
  ⟨fun _ => rfl, rfl, rfl⟩

/-- Counterexample to claim C3: the sleeper delay used by `Run` for the
default server configuration is the hardcoded constant
`time.Second * 3` = 3000000000 ns, not zero and not disabled. -/
theorem sleeper_delay_hardcoded_cex :
    (serverChainFor defaultServer).map delayOf =
      [none, some 3000000000, none, none, none, none] ∧
    (3000000000 : Nat) ≠ 0 :=
  ⟨rfl, by decide⟩

/-- Claim C3 (amended): the sleeper delay is the hardcoded constant 3
seconds (3000000000 ns) for every server configuration; no configuration
field influences it and it is never zero. -/
theorem sleeper_delay_hardcoded (s : ServerConfig) :
    (serverChainFor s).map delayOf = [none, some (3 * second), none, none, none, none] :=
  rfl

/-- Claim C4: for every listen address the gateway translator is
registered against the loopback endpoint `127.0.0.1:<port>` built from
the server's own listening port, and a loopback gRPC call (HTTP/2 with
content-type `application/grpc`) is classified back to the native gRPC
server, hence traverses the same interceptor chain as a native call. -/
theorem gateway_dials_loopback (address host port p : String)
    (h : SplitHostPort address = Except.ok (host, port)) :
    gatewayEndpoint address = Except.ok ("127.0.0.1:" ++ port) ∧
    classify { protoMajor := 2, contentType := "application/grpc", path := p } =
      Route.grpcServer := by
  constructor
  · unfold gatewayEndpoint
    rw [h]
    rfl
  · rfl

/-- Witness for C4 at the default listen address `":8080"`. -/
theorem gateway_dials_loopback_witness :
    gatewayEndpoint ":8080" = Except.ok ("127.0.0.1:" ++ "8080") ∧
    classify { protoMajor := 2, contentType := "application/grpc",
               path := "/order.OrderService/CreateOrder" } = Route.grpcServer :=
  gateway_dials_loopback ":8080" "" "8080" "/order.OrderService/CreateOrder" rfl

/-- Claim C5: `Run` fails when the TCP listener cannot be bound (with the
address in the error), returns `nil` when serving ends with
`http.ErrServerClosed` (graceful shutdown), and returns the wrapped
serve error on any other serving failure. -/
theorem run_error_contract (s : ServerConfig) (host port m : String)
    (reg : Bool) (sv : ServeResult)
    (h : SplitHostPort s.address = Except.ok (host, port)) :
    Run s { loggerOk := true, listenOk := false, registerOk := reg, serve := sv } =
      Except.error ("failed to listen on " ++ s.address) ∧
    Run s { loggerOk := true, listenOk := true, registerOk := true,
            serve := ServeResult.errServerClosed } = Except.ok () ∧
    Run s { loggerOk := true, listenOk := true, registerOk := true,
            serve := ServeResult.failure m } =
      Except.error ("failed to start http server: " ++ m) := by
  refine ⟨rfl, ?_, ?_⟩ <;> simp [Run, h]

/-- Witness for C5 at the default configuration. -/
theorem run_error_contract_witness :
    Run defaultServer
        { loggerOk := true, listenOk := false, registerOk := true,
          serve := ServeResult.errServerClosed } =
      Except.error ("failed to listen on " ++ defaultServer.address) ∧
    Run defaultServer
        { loggerOk := true, listenOk := true, registerOk := true,
          serve := ServeResult.errServerClosed } = Except.ok () ∧
    Run defaultServer
        { loggerOk := true, listenOk := true, registerOk := true,
          serve := ServeResult.failure "connection reset" } =
      Except.error ("failed to start http server: " ++ "connection reset") :=
  run_error_contract defaultServer "" "8080" "connection reset" true
    ServeResult.errServerClosed rfl

/-- Claim C6: `Stop` shuts down with the bounded grace period
`time.Second * 10`, after which the listener is closed, and stopping an
already-stopped server changes nothing (idempotence, no panic, no
unbounded blocking in the model). -/
theorem stop_bounded_grace_idempotent :
    stopGracePeriod = 10 * second ∧
    (∀ st : HTTPServerState, Stop (Stop st) = Stop st) ∧
    (∀ st : HTTPServerState, (Stop st).listenerClosed = true ∧ (Stop st).inShutdown = true) :=
  ⟨rfl, fun _ => rfl, fun _ => ⟨rfl, rfl⟩⟩

/-- Counterexample to claim C7: a request whose path is `/healthz` but
which is classified as native gRPC (HTTP/2, content-type
`application/grpc`) is dispatched to the gRPC server, not to the healthz
handler, so it does not receive status 200 with body `"OK\n"`. -/
theorem healthz_grpc_request_cex :
    serverHandle { protoMajor := 2, contentType := "application/grpc", path := "/healthz" } =
      Handled.grpcNative ∧
    Handled.grpcNative ≠ Handled.health { status := 200, body := "OK\n" } :=
  ⟨rfl, by decide⟩

/-- Claim C7 (amended): every request dispatched to the HTTP multiplexer
(i.e. not classified as native gRPC) with path `/healthz` receives HTTP
status 200 with body `"OK\n"`, independent of any store or item-client
state (the handler consults none). -/
theorem healthz_ok (r : Request) (hmux : classify r = Route.httpMux)
    (hpath : r.path = "/healthz") :
    serverHandle r = Handled.health { status := 200, body := "OK\n" } := by
  unfold serverHandle
  rw [hmux]
  unfold muxHandle
  rw [hpath]
  rfl

/-- Witness for C7 (amended): a plain HTTP/1.1 request for `/healthz`. -/
theorem healthz_ok_witness :
    serverHandle { protoMajor := 1, contentType := "", path := "/healthz" } =
      Handled.health { status := 200, body := "OK\n" } :=
  healthz_ok { protoMajor := 1, contentType := "", path := "/healthz" } rfl rfl

/-- Claim C8 (code bug): `New` loads sample data unconditionally on every
successful construction, whatever options are supplied — there is no
configuration toggle (order.go line 76, `TODO: option to load this or
not`). -/
theorem loadSampleData_unconditional :
    (New [] true).effects.sampleDataLoaded = true ∧
    (New [SetAddress ":9999"] true).effects.sampleDataLoaded = true ∧
    (New [SetEndpoint "items.default.svc:9090"] true).effects.sampleDataLoaded = true :=
  ⟨rfl, rfl, rfl⟩

/-- Claim C9: `New` dials the item service at the configured endpoint,
which defaults to `127.0.0.1:9090` and follows `SetEndpoint` overrides,
and the outbound unary call path carries exactly the pair identity
propagation then client-side metrics. -/
theorem item_dial_default_and_client_chain :
    defaultServer.endpoint = "127.0.0.1:9090" ∧
    (New [] true).dialedEndpoint = some "127.0.0.1:9090" ∧
    (New [SetEndpoint "items:9090"] true).dialedEndpoint = some "items:9090" ∧
    clientUnaryInterceptorChain =
      [ClientInterceptor.identityPropagation, ClientInterceptor.clientMetrics] :=
  ⟨rfl, rfl, rfl, rfl⟩

/-- Claim C10: if the option fold fails, `New` returns the wrapped error
(prefixed `"options function failed: "`) with no server, no dial
attempt, no item client, no store, and no sample data loaded. -/
theorem new_atomic_on_option_failure (opts : List OptionsFunc) (dialOk : Bool) (e : String)
    (h : applyOptions opts defaultServer = Except.error e) :
    (New opts dialOk).result = Except.error e ∧
    (New opts dialOk).dialedEndpoint = none ∧
    (New opts dialOk).effects =
      { dialAttempted := false, itemClientCreated := false,
        storeCreated := false, sampleDataLoaded := false } ∧
    hasPrefixChars e.data "options function failed: ".data = true := by
  refine ⟨?_, ?_, ?_, applyOptions_error_wrapped opts defaultServer e h⟩ <;>
    simp [New, h]

/-- Witness for C10: a single always-failing options function. -/
theorem new_atomic_on_option_failure_witness :
    (New [failingOption] true).result = Except.error "options function failed: boom" ∧
    (New [failingOption] true).dialedEndpoint = none ∧
    (New [failingOption] true).effects =
      { dialAttempted := false, itemClientCreated := false,
        storeCreated := false, sampleDataLoaded := false } ∧
    hasPrefixChars "options function failed: boom".data "options function failed: ".data = true :=
  new_atomic_on_option_failure [failingOption] true "options function failed: boom" rfl

end EnvoyOrder
